import Mathlib

set_option linter.unusedVariables false

/-!
Verification development for the matter-rs core: a shallow embedding of the
TLV codec, WriteBuf, session manager, interaction-model dispatch and the
data-model tree, with theorems checking the natural-language specification
against the code.

Machine integers are modelled as `Nat` with explicit `% 2^w` where overflow
matters; byte buffers are `List Nat`; fallible Rust code returns `Except` or
`Option`; Rust panics are modelled by a dedicated `ROutcome.panicked` value.
Loops are modelled by structural recursion on an explicit fuel argument that
is instantiated, at each call site, with a bound proved (or evident) to be
sufficient, so that all definitions compute.
-/

/-- Modelled from the spec: the `Error` enum of `error.rs` is not among the
provided sources (only its uses are). The variants follow the spec's §7 error
taxonomy (Parse, Capacity, Lookup, Security, Protocol, Internal), extended
with `NoEndpoint`, which the provided `data_model/objects.rs` uses. -/
inductive Error where
  | InvalidData
  | TLVTypeMismatch
  | InvalidTag
  | InvalidOpcode
  | NoTagFound
  | NoSpace
  | NoSession
  | NoExchange
  | NoEndpoint
  | EndpointNotFound
  | ClusterNotFound
  | AttributeNotFound
  | CommandNotFound
  | CryptoFail
  | InvalidSignature
  | InvalidPeerAddr
  | InvalidKeyLength
  | InvalidAction
  | NeedsTimedInteraction
  | Busy
  | Timeout
  | Invalid
deriving DecidableEq, Repr

/-- Decidable equality for `Except`, used to evaluate the embedded fallible
code on concrete inputs. -/
instance {ε α : Type _} [DecidableEq ε] [DecidableEq α] : DecidableEq (Except ε α) := fun a b =>
  match a, b with
  | .error e1, .error e2 =>
    if h : e1 = e2 then .isTrue (by rw [h]) else .isFalse (by simp [h])
  | .error _, .ok _ => .isFalse (by simp)
  | .ok _, .error _ => .isFalse (by simp)
  | .ok a1, .ok a2 =>
    if h : a1 = a2 then .isTrue (by rw [h]) else .isFalse (by simp [h])

/-- Read a byte of a buffer; Rust indexing panics out of bounds, but every
read performed by the embedded code is guarded by the source's own length
checks, so the default value is never observed on the guarded paths. -/
def byteAt (buf : List Nat) (i : Nat) : Nat :=
  buf.getD i 0

/-- `LittleEndian::read_u16` of byteorder. -/
def readLEu16 (buf : List Nat) (i : Nat) : Nat :=
  byteAt buf i + 256 * byteAt buf (i + 1)

/-- `LittleEndian::read_u32` of byteorder. -/
def readLEu32 (buf : List Nat) (i : Nat) : Nat :=
  readLEu16 buf i + 65536 * readLEu16 buf (i + 2)

/-- `LittleEndian::read_u48` of byteorder. -/
def readLEu48 (buf : List Nat) (i : Nat) : Nat :=
  readLEu32 buf i + 4294967296 * readLEu16 buf (i + 4)

/-- `LittleEndian::read_u64` of byteorder. -/
def readLEu64 (buf : List Nat) (i : Nat) : Nat :=
  readLEu32 buf i + 4294967296 * readLEu32 buf (i + 4)

/-- Two's-complement reinterpretation of an unsigned value of width `w` bits,
as done by the `read_i16` etc. of byteorder / the `as i8` casts. -/
def toSigned (w : Nat) (n : Nat) : Int :=
  if n < 2 ^ (w - 1) then (n : Int) else (n : Int) - 2 ^ w

/-- `TagType` of `tlv_common.rs` (the variant shapes are shown by the spec §3
TLVElement row and by the extractors in `tlv.rs`). -/
inductive TagType where
  | Anonymous
  | Context (b : Nat)
  | CommonPrf16 (v : Nat)
  | CommonPrf32 (v : Nat)
  | ImplPrf16 (v : Nat)
  | ImplPrf32 (v : Nat)
  | FullQual48 (v : Nat)
  | FullQual64 (v : Nat)
deriving DecidableEq, Repr

/-- `Pointer` of `tlv.rs`: a borrowed span into the buffer. -/
structure Pointer where
  buf : List Nat
  current : Nat
  left : Nat
deriving DecidableEq, Repr

/-- `ElementType` of `tlv.rs`. The float payloads are never produced by the
value extractors (their table entries return `Last`), so they carry no data
here. -/
inductive ElementType where
  | S8 (v : Int)
  | S16 (v : Int)
  | S32 (v : Int)
  | S64 (v : Int)
  | U8 (v : Nat)
  | U16 (v : Nat)
  | U32 (v : Nat)
  | U64 (v : Nat)
  | False
  | True
  | F32
  | F64
  | Utf8l (s : List Nat)
  | Utf16l
  | Utf32l
  | Utf64l
  | Str8l (s : List Nat)
  | Str16l
  | Str32l
  | Str64l
  | Null
  | Struct (p : Pointer)
  | Array (p : Pointer)
  | List (p : Pointer)
  | EndCnt
  | Last
deriving DecidableEq, Repr

/-- Modelled from the spec: `MAX_TAG_INDEX` of `tlv_common.rs` (not among the
provided sources). There are 8 tag forms (§4.1). -/
def MAX_TAG_INDEX : Nat := 8

/-- Modelled from the spec: `TAG_SIZE_MAP` of `tlv_common.rs` (not among the
provided sources). Tag byte counts per tag form, §4.1: Anonymous 0,
Context 1, CommonProfile16 2, CommonProfile32 4, ImplicitProfile16 2,
ImplicitProfile32 4, FullyQualified48 6, FullyQualified64 8. -/
def TAG_SIZE_MAP : List Nat := [0, 1, 2, 4, 2, 4, 6, 8]

def MAX_VALUE_INDEX : Nat := 25

/-- `VALUE_SIZE_MAP` of `tlv.rs`. -/
def VALUE_SIZE_MAP : List Nat :=
  [1, 2, 4, 8, 1, 2, 4, 8, 0, 0, 4, 8, 1, 2, 4, 8, 1, 2, 4, 8, 0, 0, 0, 0, 0]

/-- `TLVElement` of `tlv.rs`. -/
structure TLVElement where
  tag_type : TagType
  element_type : ElementType
deriving DecidableEq, Repr

/-- `TLVListIterator` of `tlv.rs`. -/
structure TLVListIterator where
  buf : List Nat
  current : Nat
  left : Nat
deriving DecidableEq, Repr

/-- `TLVListIterator::advance`. -/
def TLVListIterator.advance (t : TLVListIterator) (len : Nat) : TLVListIterator :=
  { t with current := t.current + len, left := t.left - len }

/-- The `TAG_EXTRACTOR` table of `tlv.rs`, indexed by tag form. The
out-of-range arm is unreachable: `read_this_tag` rejects indices ≥ 8. -/
def extractTag (t : TLVListIterator) (tag_type : Nat) : TagType :=
  match tag_type with
  | 0 => .Anonymous
  | 1 => .Context (byteAt t.buf t.current)
  | 2 => .CommonPrf16 (readLEu16 t.buf t.current)
  | 3 => .CommonPrf32 (readLEu32 t.buf t.current)
  | 4 => .ImplPrf16 (readLEu16 t.buf t.current)
  | 5 => .ImplPrf32 (readLEu32 t.buf t.current)
  | 6 => .FullQual48 (readLEu48 t.buf t.current)
  | _ => .FullQual64 (readLEu64 t.buf t.current)

/-- `TLVListIterator::read_this_tag`. -/
def TLVListIterator.read_this_tag (t : TLVListIterator) (tag_type : Nat) :
    Option (TagType × TLVListIterator) :=
  if tag_type ≥ MAX_TAG_INDEX then none
  else
    let tag_size := TAG_SIZE_MAP.getD tag_type 0
    if tag_size > t.left then none
    else some (extractTag t tag_type, t.advance tag_size)

/-- A byte-string slice `buf[(current+1)..(current+1+size)]`. -/
def sliceAt (buf : List Nat) (i : Nat) (size : Nat) : List Nat :=
  (buf.drop i).take size

/-- The `VALUE_EXTRACTOR` table of `tlv.rs`, indexed by element type; returns
the extra size consumed beyond `VALUE_SIZE_MAP` plus the element. Entries
marked `Last` in the source (floats, wide strings, out of range) are parse
failures. -/
def extractValue (t : TLVListIterator) (element_type : Nat) : Nat × ElementType :=
  match element_type with
  | 0 => (0, .S8 (toSigned 8 (byteAt t.buf t.current)))
  | 1 => (0, .S16 (toSigned 16 (readLEu16 t.buf t.current)))
  | 2 => (0, .S32 (toSigned 32 (readLEu32 t.buf t.current)))
  | 3 => (0, .S64 (toSigned 64 (readLEu64 t.buf t.current)))
  | 4 => (0, .U8 (byteAt t.buf t.current))
  | 5 => (0, .U16 (readLEu16 t.buf t.current))
  | 6 => (0, .U32 (readLEu32 t.buf t.current))
  | 7 => (0, .U64 (readLEu64 t.buf t.current))
  | 8 => (0, .False)
  | 9 => (0, .True)
  | 10 => (0, .Last)
  | 11 => (0, .Last)
  | 12 =>
    let size := byteAt t.buf t.current
    if size + 1 > t.left then (size, .Last)
    else (size, .Utf8l (sliceAt t.buf (t.current + 1) size))
  | 13 => (0, .Last)
  | 14 => (0, .Last)
  | 15 => (0, .Last)
  | 16 =>
    let size := byteAt t.buf t.current
    if size + 1 > t.left then (size, .Last)
    else (size, .Str8l (sliceAt t.buf (t.current + 1) size))
  | 17 => (0, .Last)
  | 18 => (0, .Last)
  | 19 => (0, .Last)
  | 20 => (0, .Null)
  | 21 => (0, .Struct ⟨t.buf, t.current, t.left⟩)
  | 22 => (0, .Array ⟨t.buf, t.current, t.left⟩)
  | 23 => (0, .List ⟨t.buf, t.current, t.left⟩)
  | _ => (0, .EndCnt)

/-- `TLVListIterator::read_this_value`. -/
def TLVListIterator.read_this_value (t : TLVListIterator) (element_type : Nat) :
    Option (ElementType × TLVListIterator) :=
  if element_type ≥ MAX_VALUE_INDEX then none
  else
    let size := VALUE_SIZE_MAP.getD element_type 0
    if size > t.left then none
    else
      let r := extractValue t element_type
      if r.2 ≠ .Last then some (r.2, t.advance (size + r.1))
      else none

/-- `TLVListIterator::next`: read the control octet, consume the tag, consume
the value; any failure yields `none`. -/
def TLVListIterator.next (t : TLVListIterator) : Option (TLVElement × TLVListIterator) :=
  if t.left < 1 then none
  else
    let control := byteAt t.buf t.current
    let tag_kind := (control &&& 0xe0) >>> 5
    let elem_kind := control &&& 0x1f
    let t1 := t.advance 1
    match t1.read_this_tag tag_kind with
    | none => none
    | some (tag, t2) =>
      match t2.read_this_value elem_kind with
      | none => none
      | some (et, t3) => some (⟨tag, et⟩, t3)

/-- `TLVList::into_iter` for a whole buffer (via `TLVList::new(b, b.len())`). -/
def tlvListIterOf (b : List Nat) : TLVListIterator :=
  ⟨b, 0, b.length⟩

/-- `is_container` of `tlv.rs`. -/
def is_container (element_type : ElementType) : Bool :=
  match element_type with
  | .Struct _ | .Array _ | .List _ => true
  | _ => false

/-- `TLVContainerIterator` of `tlv.rs`. -/
structure TLVContainerIterator where
  list_iter : TLVListIterator
  prev_container : Bool
  iterator_consumed : Bool
deriving DecidableEq, Repr

/-- `TLVElement::into_iter`. -/
def TLVElement.into_iter (e : TLVElement) : Option TLVContainerIterator :=
  match e.element_type with
  | .Struct p | .Array p | .List p =>
    some ⟨⟨p.buf, p.current, p.left⟩, false, false⟩
  | _ => none

/-- `TLVElement::get_u8`. -/
def TLVElement.get_u8 (e : TLVElement) : Except Error Nat :=
  match e.element_type with
  | .U8 a => .ok a
  | _ => .error .TLVTypeMismatch

/-- `TLVElement::get_u16`. -/
def TLVElement.get_u16 (e : TLVElement) : Except Error Nat :=
  match e.element_type with
  | .U16 a => .ok a
  | _ => .error .TLVTypeMismatch

/-- `TLVElement::get_u32`. -/
def TLVElement.get_u32 (e : TLVElement) : Except Error Nat :=
  match e.element_type with
  | .U32 a => .ok a
  | _ => .error .TLVTypeMismatch

/-- `TLVElement::get_slice`. -/
def TLVElement.get_slice (e : TLVElement) : Except Error (List Nat) :=
  match e.element_type with
  | .Str8l s | .Utf8l s => .ok s
  | _ => .error .TLVTypeMismatch

/-- `TLVElement::get_bool`. -/
def TLVElement.get_bool (e : TLVElement) : Except Error Bool :=
  match e.element_type with
  | .False => .ok false
  | .True => .ok true
  | _ => .error .TLVTypeMismatch

/-- `TLVElement::confirm_struct`. -/
def TLVElement.confirm_struct (e : TLVElement) : Except Error TLVElement :=
  match e.element_type with
  | .Struct _ => .ok e
  | _ => .error .TLVTypeMismatch

/-- `TLVElement::confirm_array`. -/
def TLVElement.confirm_array (e : TLVElement) : Except Error TLVElement :=
  match e.element_type with
  | .Array _ => .ok e
  | _ => .error .TLVTypeMismatch

/-- `TLVElement::confirm_list`. -/
def TLVElement.confirm_list (e : TLVElement) : Except Error TLVElement :=
  match e.element_type with
  | .List _ => .ok e
  | _ => .error .TLVTypeMismatch

/-- The loop body of `TLVContainerIterator::skip_to_end_of_container`,
by structural recursion on fuel. Each successful `TLVListIterator.next`
strictly decreases `left`, so fuel `left + 1` is sufficient. The returned
`Bool` records whether `iterator_consumed` was set. -/
def skipLoop (fuel : Nat) (li : TLVListIterator) (nest_level : Nat) :
    Option TLVElement × TLVListIterator × Bool :=
  match fuel with
  | 0 => (none, li, false)
  | fuel + 1 =>
    match li.next with
    | none => (none, li, false)
    | some (element, li1) =>
      match element.element_type with
      | .EndCnt =>
        if nest_level = 0 then
          match li1.next with
          | none => (none, li1, false)
          | some (last_elem, li2) =>
            match last_elem.element_type with
            | .EndCnt => (none, li2, true)
            | _ => (some last_elem, li2, false)
        else skipLoop fuel li1 (nest_level - 1)
      | et => skipLoop fuel li1 (if is_container et then nest_level + 1 else nest_level)

/-- `TLVContainerIterator::skip_to_end_of_container`, with sufficient fuel. -/
def TLVContainerIterator.skip_to_end_of_container (it : TLVContainerIterator) :
    Option TLVElement × TLVListIterator × Bool :=
  skipLoop (it.list_iter.left + 1) it.list_iter 0

/-- `TLVContainerIterator::next`: sticky after consumption; skips the body of
the previously yielded container; stops (permanently) at the matching
end-of-container. -/
def TLVContainerIterator.next (it : TLVContainerIterator) :
    Option TLVElement × TLVContainerIterator :=
  if it.iterator_consumed then (none, it)
  else
    let r :=
      if it.prev_container then it.skip_to_end_of_container
      else
        match it.list_iter.next with
        | none => (none, it.list_iter, false)
        | some (e, li1) => (some e, li1, false)
    match r with
    | (none, li1, consumed) =>
      (none,
       { it with list_iter := li1, iterator_consumed := it.iterator_consumed || consumed })
    | (some element, li1, _) =>
      if element.element_type = .EndCnt then
        (none, { it with list_iter := li1, iterator_consumed := true })
      else
        (some element,
         { it with list_iter := li1, prev_container := is_container element.element_type })

/-- The loop of `TLVElement::find_tag`, by structural recursion on fuel;
fuel `list_iter.left + 1` is sufficient because each yielded element
strictly decreases `left`. -/
def findTagLoop (fuel : Nat) (it : TLVContainerIterator) (match_tag : TagType) :
    Except Error TLVElement :=
  match fuel with
  | 0 => .error .NoTagFound
  | fuel + 1 =>
    match it.next with
    | (none, _) => .error .NoTagFound
    | (some a, it1) =>
      if match_tag = a.tag_type then .ok a
      else findTagLoop fuel it1 match_tag

/-- `TLVElement::find_tag`: linear search of context-tagged children
(`tag as u8` is `tag % 256`). -/
def TLVElement.find_tag (e : TLVElement) (tag : Nat) : Except Error TLVElement :=
  match e.into_iter with
  | none => .error .TLVTypeMismatch
  | some iter => findTagLoop (iter.list_iter.left + 1) iter (.Context (tag % 256))

/-- `get_root_node_struct` of `tlv.rs`. -/
def get_root_node_struct (b : List Nat) : Except Error TLVElement :=
  match (tlvListIterOf b).next with
  | none => .error .InvalidData
  | some (e, _) => e.confirm_struct

/-- `get_root_node_list` of `tlv.rs`. -/
def get_root_node_list (b : List Nat) : Except Error TLVElement :=
  match (tlvListIterOf b).next with
  | none => .error .InvalidData
  | some (e, _) => e.confirm_list

/-- `CmdPathIb` of `interaction_model/mod.rs`. -/
structure CmdPathIb where
  endpoint : Option Nat
  cluster : Option Nat
  command : Nat
deriving DecidableEq, Repr

/-- `CmdPathIb::from_tlv` of `interaction_model/command.rs`: endpoint and
cluster are optional (`.ok()`), decoded as u8 and widened; the command id is
mandatory (`?`). -/
def CmdPathIb.from_tlv (cmd_path : TLVElement) : Except Error CmdPathIb := do
  let command ← (← cmd_path.find_tag 2).get_u8
  pure
    { endpoint := ((cmd_path.find_tag 0).bind TLVElement.get_u8).toOption
      cluster := ((cmd_path.find_tag 1).bind TLVElement.get_u8).toOption
      command := command }

def INVOKE_REQ_CTX_TAG_INVOKE_REQUESTS : Nat := 2

/-- The body of the `while let` loop of `InteractionModel::handle_invoke_req`,
collecting, in order, the `(cmd_path_ib, data)` pairs passed to
`consumer.consume_invoke_cmd`; fuel `list_iter.left + 1` is sufficient. Any
error aborts handling (the `?` in the source). -/
def collectInvokeLoop (fuel : Nat) (iter : TLVContainerIterator) :
    Except Error (List (CmdPathIb × TLVElement)) :=
  match fuel with
  | 0 => .ok []
  | fuel + 1 =>
    match iter.next with
    | (none, _) => .ok []
    | (some cmd_data_ib, iter1) => do
      let lst ← (← cmd_data_ib.find_tag 0).confirm_list
      let cmd_path_ib ← CmdPathIb.from_tlv lst
      let data ← cmd_data_ib.find_tag 1
      let rest ← collectInvokeLoop fuel iter1
      pure ((cmd_path_ib, data) :: rest)

/-- The request-decoding side of `InteractionModel::handle_invoke_req`: root
anonymous struct, invoke-requests array at context-tag 2, and the sequence of
commands delivered to the data-model consumer. (The response-writing side
uses `TLVWriter`, which lives outside the handler's decision here.) -/
def handle_invoke_req_delivered (buf : List Nat) :
    Except Error (List (CmdPathIb × TLVElement)) := do
  let root ← get_root_node_struct buf
  let arr ← (← root.find_tag INVOKE_REQ_CTX_TAG_INVOKE_REQUESTS).confirm_array
  match arr.into_iter with
  | none => .error .InvalidData
  | some iter => collectInvokeLoop (iter.list_iter.left + 1) iter

/-- The invoke-request bytes of spec §8 scenario 3 (also the literal input of
the repository's `test_valid_invoke_cmd`). -/
def invokeReqBytes : List Nat :=
  [0x15, 0x28, 0x00, 0x28, 0x01, 0x36, 0x02, 0x15, 0x37, 0x00, 0x24, 0x00, 0x00,
   0x24, 0x01, 0x31, 0x24, 0x02, 0x0c, 0x18, 0x35, 0x01, 0x24, 0x00, 0x05, 0x18,
   0x18, 0x18, 0x18]

/-- `OpCode` of `interaction_model/core.rs` (names as in the source,
including `SubscriptResponse`). -/
inductive OpCode where
  | Reserved
  | StatusResponse
  | ReadRequest
  | SubscribeRequest
  | SubscriptResponse
  | ReportData
  | WriteRequest
  | WriteResponse
  | InvokeRequest
  | InvokeResponse
  | TimedRequest
deriving DecidableEq, Repr

/-- `num::FromPrimitive::from_u8` for `OpCode` (discriminants 0..10). -/
def OpCode.from_u8 (n : Nat) : Option OpCode :=
  match n with
  | 0 => some .Reserved
  | 1 => some .StatusResponse
  | 2 => some .ReadRequest
  | 3 => some .SubscribeRequest
  | 4 => some .SubscriptResponse
  | 5 => some .ReportData
  | 6 => some .WriteRequest
  | 7 => some .WriteResponse
  | 8 => some .InvokeRequest
  | 9 => some .InvokeResponse
  | 10 => some .TimedRequest
  | _ => none

/-- Which of the three mandated request handlers a message is dispatched to. -/
inductive ImRequestKind where
  | invoke
  | read
  | write
deriving DecidableEq, Repr

/-- The opcode-dispatch skeleton of `InteractionModel::handle_proto_id`:
decode the opcode (`Error::Invalid` if undecodable), dispatch Invoke, Read
and Write to their handlers, return `Err(Error::InvalidOpcode)` for
everything else (no response is written on the error path; the transport
loop logs the error and sends nothing). -/
def handle_proto_id_dispatch (proto_opcode : Nat) : Except Error ImRequestKind :=
  match OpCode.from_u8 proto_opcode with
  | none => .error .Invalid
  | some op =>
    match op with
    | .InvokeRequest => .ok .invoke
    | .ReadRequest => .ok .read
    | .WriteRequest => .ok .write
    | _ => .error .InvalidOpcode

/-- `IMStatusCode` of `interaction_model/core.rs` (names as in the source,
including `Sucess`). -/
inductive IMStatusCode where
  | Sucess
  | Failure
  | InvalidSubscription
  | UnsupportedAccess
  | UnsupportedEndpoint
  | InvalidAction
  | UnsupportedCommand
  | InvalidCommand
  | UnsupportedAttribute
  | ConstraintError
  | UnsupportedWrite
  | ResourceExhausted
  | NotFound
  | UnreportableAttribute
  | InvalidDataType
  | UnsupportedRead
  | DataVersionMismatch
  | Timeout
  | Busy
  | UnsupportedCluster
  | NoUpstreamSubscription
  | NeedsTimedInteraction
deriving DecidableEq, Repr

/-- The numeric discriminants of `IMStatusCode` as declared in the source. -/
def IMStatusCode.toNat (c : IMStatusCode) : Nat :=
  match c with
  | .Sucess => 0
  | .Failure => 1
  | .InvalidSubscription => 0x7d
  | .UnsupportedAccess => 0x7e
  | .UnsupportedEndpoint => 0x7f
  | .InvalidAction => 0x80
  | .UnsupportedCommand => 0x81
  | .InvalidCommand => 0x85
  | .UnsupportedAttribute => 0x86
  | .ConstraintError => 0x87
  | .UnsupportedWrite => 0x88
  | .ResourceExhausted => 0x89
  | .NotFound => 0x8b
  | .UnreportableAttribute => 0x8c
  | .InvalidDataType => 0x8d
  | .UnsupportedRead => 0x8f
  | .DataVersionMismatch => 0x92
  | .Timeout => 0x94
  | .Busy => 0x9c
  | .UnsupportedCluster => 0xc3
  | .NoUpstreamSubscription => 0xc5
  | .NeedsTimedInteraction => 0xc6

/-- `impl From<Error> for IMStatusCode` of `interaction_model/core.rs`:
four lookup errors map to their Unsupported* codes, everything else to
`Failure`. -/
def imStatusCodeFromError (e : Error) : IMStatusCode :=
  match e with
  | .EndpointNotFound => .UnsupportedEndpoint
  | .ClusterNotFound => .UnsupportedCluster
  | .AttributeNotFound => .UnsupportedAttribute
  | .CommandNotFound => .UnsupportedCommand
  | _ => .Failure

/-- `WriteBuf` of `utils/writebuf.rs` (`end` is a reserved word in Lean,
hence `end_`). -/
structure WriteBuf where
  buf : List Nat
  start : Nat
  end_ : Nat
deriving DecidableEq, Repr

/-- Overwrite `buf[i .. i + src.length)` with `src` (the effect of the
`copy_from_slice` / `LittleEndian::write_*` closures of `writebuf.rs`). -/
def writeAt (buf : List Nat) (i : Nat) (src : List Nat) : List Nat :=
  buf.take i ++ src ++ buf.drop (i + src.length)

/-- `WriteBuf::append_with(size, f)`, specialized to the closures the source
passes to it: each writes exactly `size` bytes at `end`. Bounds-checks
`end + size <= buf.len()` and returns `NoSpace`, leaving the buffer
untouched, on overflow. -/
def WriteBuf.append_with (wb : WriteBuf) (src : List Nat) : Except Error Unit × WriteBuf :=
  if wb.end_ + src.length ≤ wb.buf.length then
    (.ok (), { wb with buf := writeAt wb.buf wb.end_ src, end_ := wb.end_ + src.length })
  else (.error .NoSpace, wb)

/-- `WriteBuf::prepend_with(size, f)`, specialized to the closure `prepend`
passes to it: writes exactly `size` bytes ending at `start`. Bounds-checks
`size <= start`. -/
def WriteBuf.prepend_with (wb : WriteBuf) (src : List Nat) : Except Error Unit × WriteBuf :=
  if src.length ≤ wb.start then
    (.ok (), { wb with buf := writeAt wb.buf (wb.start - src.length) src,
                       start := wb.start - src.length })
  else (.error .NoSpace, wb)

/-- `WriteBuf::copy_from_slice`. -/
def WriteBuf.copy_from_slice (wb : WriteBuf) (src : List Nat) : Except Error Unit × WriteBuf :=
  wb.append_with src

/-- `WriteBuf::append` (delegates to `copy_from_slice`). -/
def WriteBuf.append (wb : WriteBuf) (src : List Nat) : Except Error Unit × WriteBuf :=
  wb.copy_from_slice src

/-- `WriteBuf::prepend`. -/
def WriteBuf.prepend (wb : WriteBuf) (src : List Nat) : Except Error Unit × WriteBuf :=
  wb.prepend_with src

/-- The little-endian byte encoding of `d mod 2^(8*n)` on `n` bytes, as
written by `LittleEndian::write_u16/u32/u64/uint`. -/
def leBytes (n : Nat) (d : Nat) : List Nat :=
  (List.range n).map fun i => d / 256 ^ i % 256

/-- `WriteBuf::le_u8`. -/
def WriteBuf.le_u8 (wb : WriteBuf) (d : Nat) : Except Error Unit × WriteBuf :=
  wb.append_with (leBytes 1 d)

/-- `WriteBuf::le_i8` (casts to u8, i.e. two's complement mod 256). -/
def WriteBuf.le_i8 (wb : WriteBuf) (d : Int) : Except Error Unit × WriteBuf :=
  wb.le_u8 (d % 256).toNat

/-- `WriteBuf::le_u16`. -/
def WriteBuf.le_u16 (wb : WriteBuf) (d : Nat) : Except Error Unit × WriteBuf :=
  wb.append_with (leBytes 2 d)

/-- `WriteBuf::le_u32`. -/
def WriteBuf.le_u32 (wb : WriteBuf) (d : Nat) : Except Error Unit × WriteBuf :=
  wb.append_with (leBytes 4 d)

/-- `WriteBuf::le_u64`. -/
def WriteBuf.le_u64 (wb : WriteBuf) (d : Nat) : Except Error Unit × WriteBuf :=
  wb.append_with (leBytes 8 d)

/-- `WriteBuf::le_uint`. -/
def WriteBuf.le_uint (wb : WriteBuf) (nbytes : Nat) (d : Nat) : Except Error Unit × WriteBuf :=
  wb.append_with (leBytes nbytes d)

/-- `WriteBuf::get_tail`. -/
def WriteBuf.get_tail (wb : WriteBuf) : Nat :=
  wb.end_

/-- `WriteBuf::rewind_tail_to`. -/
def WriteBuf.rewind_tail_to (wb : WriteBuf) (new_end : Nat) : WriteBuf :=
  { wb with end_ := new_end }

/-- `WriteBuf::forward_tail_by`. -/
def WriteBuf.forward_tail_by (wb : WriteBuf) (new_offset : Nat) : WriteBuf :=
  { wb with end_ := wb.end_ + new_offset }

/-- `SessionMode` of `transport/session.rs`. -/
inductive SessionMode where
  | Case (fabric_idx : Nat)
  | Pase
  | PlainText
deriving DecidableEq, Repr

/-- `Session` of `transport/session.rs`. The peer socket address is opaque
(a `Nat` label) and the type-erased per-session `data` slot is omitted. -/
structure Session where
  peer_addr : Nat
  dec_key : List Nat
  enc_key : List Nat
  att_challenge : List Nat
  local_sess_id : Nat
  peer_sess_id : Nat
  msg_ctr : Nat
  mode : SessionMode
deriving DecidableEq, Repr

/-- `CloneData` of `transport/session.rs`. -/
structure CloneData where
  dec_key : List Nat
  enc_key : List Nat
  att_challenge : List Nat
  local_sess_id : Nat
  peer_sess_id : Nat
  mode : SessionMode
deriving DecidableEq, Repr

/-- `Session::new`: a plain-text session with zeroed keys, ids 0 and
`msg_ctr` 1. -/
def Session.new (peer_addr : Nat) : Session :=
  { peer_addr := peer_addr
    dec_key := List.replicate 16 0
    enc_key := List.replicate 16 0
    att_challenge := List.replicate 16 0
    peer_sess_id := 0
    local_sess_id := 0
    msg_ctr := 1
    mode := .PlainText }

/-- `Session::clone`: adopts keys, ids and mode from the `CloneData`;
`msg_ctr` resets to 1. -/
def Session.clone (s : Session) (clone_from : CloneData) : Session :=
  { peer_addr := s.peer_addr
    dec_key := clone_from.dec_key
    enc_key := clone_from.enc_key
    att_challenge := clone_from.att_challenge
    local_sess_id := clone_from.local_sess_id
    peer_sess_id := clone_from.peer_sess_id
    msg_ctr := 1
    mode := clone_from.mode }

/-- `Session::is_encrypted`. -/
def Session.is_encrypted (s : Session) : Bool :=
  match s.mode with
  | .Case _ | .Pase => true
  | .PlainText => false

def U32_MOD : Nat := 4294967296

/-- `Session::get_msg_ctr`: returns the current counter and post-increments
it (`msg_ctr` is a `u32`). -/
def Session.get_msg_ctr (s : Session) : Nat × Session :=
  (s.msg_ctr, { s with msg_ctr := (s.msg_ctr + 1) % U32_MOD })

/-- Modelled from the spec: the session type bit of the plain header
(`plain_hdr.rs` is not among the provided sources); §4.3 gives
type = Encrypted | Unencrypted. -/
inductive SessType where
  | Encrypted
  | Unencrypted
deriving DecidableEq, Repr

/-- Modelled from the spec: the fields of `PlainHdr` that `pre_send`
touches (session id, message counter, session type), §4.3. -/
structure PlainHdr where
  sess_id : Nat
  ctr : Nat
  sess_type : SessType
deriving DecidableEq, Repr

/-- `Session::pre_send`: stamps the peer session id and the next message
counter into the plain header, and marks it encrypted for secure sessions. -/
def Session.pre_send (s : Session) (hdr : PlainHdr) : PlainHdr × Session :=
  let hdr1 := { hdr with sess_id := s.peer_sess_id }
  let r := s.get_msg_ctr
  let hdr2 := { hdr1 with ctr := r.1 }
  let hdr3 := if s.is_encrypted then { hdr2 with sess_type := .Encrypted } else hdr2
  (hdr3, r.2)

/-- `SessionMgr` of `transport/session.rs`: a fixed table of 16 optional

sessions and the rotating id generator. -/
structure SessionMgr where
  next_sess_id : Nat
  sessions : List (Option Session)
deriving DecidableEq, Repr

/-- `SessionMgr::new`. -/
def SessionMgr.new : SessionMgr :=
  { next_sess_id := 1, sessions := List.replicate 16 none }

/-- `SessionMgr::get_with_id`: the position of the first slot whose session
has the given local id. -/
def SessionMgr.get_with_id (m : SessionMgr) (sess_id : Nat) : Option Nat :=
  m.sessions.findIdx? fun x => (x.map Session.local_sess_id) == some sess_id

/-- The id-generator increment of `get_next_sess_id`: `overflowing_add(1)`
on a u16, then replace 0 by 1. -/
def succSessId (x : Nat) : Nat :=
  let n := (x + 1) % 65536
  if n = 0 then 1 else n

/-- The `loop` of `SessionMgr::get_next_sess_id`, by structural recursion on
fuel: take the current candidate, advance the generator, and retry while the
candidate collides with a stored session. -/
def getNextSessIdLoop (fuel : Nat) (m : SessionMgr) : Option (Nat × SessionMgr) :=
  match fuel with
  | 0 => none
  | fuel + 1 =>
    let next_sess_id := m.next_sess_id
    let m1 := { m with next_sess_id := succSessId m.next_sess_id }
    if (m1.get_with_id next_sess_id).isNone then some (next_sess_id, m1)
    else getNextSessIdLoop fuel m1

/-- `SessionMgr::get_next_sess_id`. Fuel 65536 covers the whole u16 space;
the termination theorem below shows fuel 17 already suffices for any
reachable state. -/
def SessionMgr.get_next_sess_id (m : SessionMgr) : Option (Nat × SessionMgr) :=
  getNextSessIdLoop 65536 m

/-- `SessionHandle::reserve_new_sess_id` simply delegates to the manager's
`get_next_sess_id`. -/
def SessionHandle.reserve_new_sess_id (m : SessionMgr) : Option (Nat × SessionMgr) :=
  m.get_next_sess_id

/-- The well-formedness invariant of the session manager: the generator is a
non-zero u16 (established by `new`, maintained by the increment) and the
table has its 16 slots. -/
def SessionMgr.Wf (m : SessionMgr) : Prop :=
  1 ≤ m.next_sess_id ∧ m.next_sess_id ≤ 65535 ∧ m.sessions.length = 16

instance (m : SessionMgr) : Decidable m.Wf := by
  unfold SessionMgr.Wf; infer_instance

/-- `ENDPTS_PER_ACC` of `data_model/objects.rs`. -/
def ENDPTS_PER_ACC : Nat := 3

/-- `CLUSTERS_PER_ENDPT` of `data_model/objects.rs`. -/
def CLUSTERS_PER_ENDPT : Nat := 4

/-- `AttrValue` of `data_model/objects.rs`. -/
inductive AttrValue where
  | Int8 (v : Int)
  | Int64 (v : Int)
  | Uint16 (v : Nat)
  | Bool (b : Bool)
deriving DecidableEq, Repr

/-- `Attribute` of `data_model/objects.rs`. -/
structure Attribute where
  id : Nat
  value : AttrValue
deriving DecidableEq, Repr

/-- `Command` of `data_model/objects.rs`; the handler callback is omitted
(only the id takes part in lookup). -/
structure Command where
  id : Nat
deriving DecidableEq, Repr

/-- `Cluster` of `data_model/objects.rs`. -/
structure Cluster where
  id : Nat
  attributes : List (Option Attribute)
  commands : List (Option Command)
deriving DecidableEq, Repr

/-- `Endpoint` of `data_model/objects.rs`. -/
structure Endpoint where
  clusters : List (Option Cluster)
deriving DecidableEq, Repr

/-- `Node` of `data_model/objects.rs`: a fixed array of `ENDPTS_PER_ACC`
optional endpoints. -/
structure Node where
  endpoints : List (Option Endpoint)
deriving DecidableEq, Repr

/-- The outcome of running a piece of Rust code: a value, an `Err`, or a
panic (used for the unchecked array indexing of `objects.rs`). -/
inductive ROutcome (α : Type) where
  | ok (a : α)
  | err (e : Error)
  | panicked
deriving DecidableEq, Repr

/-- The slot-filling loop shared by `add_cluster` / `add_attribute` /
`add_command`: place the value in the first free slot, or fail. -/
def addToFirstFreeSlot {α : Type} : List (Option α) → α → Option (List (Option α))
  | [], _ => none
  | none :: rest, v => some (some v :: rest)
  | some x :: rest, v => (addToFirstFreeSlot rest v).map (some x :: ·)

/-- `Endpoint::add_cluster`: first free slot or `NoSpace`. -/
def Endpoint.add_cluster (e : Endpoint) (c : Cluster) : Except Error Endpoint :=
  match addToFirstFreeSlot e.clusters c with
  | some l => .ok { clusters := l }
  | none => .error .NoSpace

/-- `Node::new` (via `Node::default`). -/
def Node.new : Node :=
  { endpoints := List.replicate ENDPTS_PER_ACC none }

/-- `Node::get_endpoint`: indexes `self.endpoints[endpoint_id]` without a
bounds check (a panic when the id is out of range), then `ok_or(Invalid)`
on the empty slot. -/
def Node.get_endpoint (n : Node) (endpoint_id : Nat) : ROutcome Endpoint :=
  match n.endpoints.get? endpoint_id with
  | none => .panicked
  | some none => .err .Invalid
  | some (some ep) => .ok ep

/-- `Node::add_cluster`: indexes `self.endpoints[endpoint_id]` without a
bounds check (a panic when the id is out of range), then
`ok_or(NoEndpoint)` and the endpoint's `add_cluster`. -/
def Node.add_cluster (n : Node) (endpoint_id : Nat) (c : Cluster) : ROutcome Node :=
  match n.endpoints.get? endpoint_id with
  | none => .panicked
  | some none => .err .NoEndpoint
  | some (some ep) =>
    match ep.add_cluster c with
    | .ok ep1 => .ok { endpoints := n.endpoints.set endpoint_id (some ep1) }
    | .error e => .err e

/-- The element-type codes whose `VALUE_EXTRACTOR` entry returns `Last`
(floats and the wide string/bytes widths): unsupported by the parser. -/
def unsupportedElemKinds : List Nat := [10, 11, 13, 14, 15, 17, 18, 19]

/-- The truncated-string input of spec §8 scenario 2 (length byte claims 11,
only 4 bytes follow). -/
def truncStrBytes : List Nat := [0x15, 0x30, 0x00, 0x0b, 0x73, 0x6d, 0x61, 0x72]

/-- The input of the repository's `test_read_past_end_of_container`: a root
struct holding a nested struct followed by one more element. -/
def nestedBytes : List Nat :=
  [0x15, 0x35, 0x0, 0x24, 0x1, 0x2, 0x18, 0x24, 0x0, 0x2, 0x18]

/-- Step a container iterator, keeping only the successor state. -/
def nextIter (it : TLVContainerIterator) : TLVContainerIterator :=
  (it.next).2

/-- The candidate id examined at the i-th iteration of the
`get_next_sess_id` loop, in closed form: the generator walks the cycle
1, 2, …, 65535, 1, … . -/
def candAt (c0 i : Nat) : Nat :=
  (c0 - 1 + i) % 65535 + 1

/-- The multiset of local ids of the stored sessions. -/
def usedIds (m : SessionMgr) : List Nat :=
  m.sessions.filterMap (Option.map Session.local_sess_id)

/-- A stored session with a given local id (as built by the repository's
tests: `add` a fresh session, then `set_local_sess_id`). -/
def mkSession (lid : Nat) : Session :=
  { Session.new 0 with local_sess_id := lid }

/-- Spec §8 scenario 4, first part: sessions with local ids {1, 4} and the
generator at 2. -/
def mgrScenarioA : SessionMgr :=
  { next_sess_id := 2
    sessions := [some (mkSession 1), some (mkSession 4)] ++ List.replicate 14 none }

/-- Spec §8 scenario 4, second part: a session with local id 1 and the
generator forced to 65534. -/
def mgrScenarioB : SessionMgr :=
  { next_sess_id := 65534
    sessions := [some (mkSession 1)] ++ List.replicate 15 none }

/-- A manager with the generator at u16::MAX and an empty table (for the
wrap-around observation). -/
def mgrAtMax : SessionMgr :=
  { next_sess_id := 65535, sessions := List.replicate 16 none }

/-- Three successive `reserve_new_sess_id` calls, threading the manager. -/
def reserveCalls3 (m : SessionMgr) : Option (Nat × Nat × Nat) := do
  let r1 ← SessionHandle.reserve_new_sess_id m
  let r2 ← SessionHandle.reserve_new_sess_id r1.2
  let r3 ← SessionHandle.reserve_new_sess_id r2.2
  pure (r1.1, r2.1, r3.1)

/-! ## Theorems -/

/-- Claim C2: handling an InvokeRequest whose body is the literal byte
string of spec §8 scenario 3 decodes the invoke-requests array at
context-tag 2 and delivers to the data-model consumer exactly one command
with endpoint 0, cluster 49, command 12, whose payload's context-tag-0
element is u8(5). -/
theorem invoke_request_delivers_one_command :
    handle_invoke_req_delivered invokeReqBytes =
      .ok [(⟨some 0, some 49, 12⟩, ⟨.Context 1, .Struct ⟨invokeReqBytes, 22, 7⟩⟩)] ∧
    TLVElement.find_tag ⟨.Context 1, .Struct ⟨invokeReqBytes, 22, 7⟩⟩ 0 =
      .ok ⟨.Context 0, .U8 5⟩ ∧
    (TLVElement.find_tag ⟨.Context 1, .Struct ⟨invokeReqBytes, 22, 7⟩⟩ 0).bind
        TLVElement.get_u8 = .ok 5 := by
  refine ⟨by decide, by decide, by decide⟩

/-- Claim C4: the internal-error → IM status code mapping is total and
follows the spec's table: the four lookup errors map to
UnsupportedEndpoint (0x7F), UnsupportedCluster (0xC3),
UnsupportedAttribute (0x86) and UnsupportedCommand (0x81), and every other
variant maps to Failure (0x01); Success is 0x00. -/
theorem im_status_mapping_total :
    imStatusCodeFromError .EndpointNotFound = .UnsupportedEndpoint ∧
    IMStatusCode.toNat .UnsupportedEndpoint = 0x7f ∧
    imStatusCodeFromError .ClusterNotFound = .UnsupportedCluster ∧
    IMStatusCode.toNat .UnsupportedCluster = 0xc3 ∧
    imStatusCodeFromError .AttributeNotFound = .UnsupportedAttribute ∧
    IMStatusCode.toNat .UnsupportedAttribute = 0x86 ∧
    imStatusCodeFromError .CommandNotFound = .UnsupportedCommand ∧
    IMStatusCode.toNat .UnsupportedCommand = 0x81 ∧
    IMStatusCode.toNat .Failure = 0x01 ∧
    IMStatusCode.toNat .Sucess = 0x00 ∧
    ∀ e : Error, e ≠ .EndpointNotFound → e ≠ .ClusterNotFound →
      e ≠ .AttributeNotFound → e ≠ .CommandNotFound →
      imStatusCodeFromError e = .Failure := by
  refine ⟨rfl, rfl, rfl, rfl, rfl, rfl, rfl, rfl, rfl, rfl, ?_⟩
  intro e h1 h2 h3 h4
  cases e <;> simp_all [imStatusCodeFromError]

/-- Witness for C4: a variant outside the four lookup errors maps to
Failure. -/
theorem im_status_mapping_total_witness :
    imStatusCodeFromError .NoSpace = .Failure :=
  im_status_mapping_total.2.2.2.2.2.2.2.2.2.2 Error.NoSpace
    (by decide) (by decide) (by decide) (by decide)

/-- Claim C5, counterexample: for the subscribe opcodes 3 and 4 the opcode
does decode, but `handle_proto_id` returns `Err(Error::InvalidOpcode)` from
its catch-all arm — the error path on which no response is written (the
transport loop logs the error and sends nothing) — so the handler does not
respond with a Failure status as claimed. -/
theorem subscribe_opcode_counterexample :
    OpCode.from_u8 3 = some .SubscribeRequest ∧
    OpCode.from_u8 4 = some .SubscriptResponse ∧
    handle_proto_id_dispatch 3 = .error .InvalidOpcode ∧
    handle_proto_id_dispatch 4 = .error .InvalidOpcode ∧
    (handle_proto_id_dispatch 3).isOk = false ∧
    (handle_proto_id_dispatch 4).isOk = false := by
  decide

/-- Claim C5, amended: for every received IM message whose opcode is
SubscribeRequest (3) or SubscribeResponse (4), the opcode is decoded
successfully, and the handler then fails with `Error::InvalidOpcode`
without dispatching to any request handler (so no response is written);
the same holds for every other decodable opcode outside Read, Write and
Invoke. -/
theorem subscribe_opcodes_error_without_response :
    (OpCode.from_u8 3 = some .SubscribeRequest ∧
      handle_proto_id_dispatch 3 = .error .InvalidOpcode) ∧
    (OpCode.from_u8 4 = some .SubscriptResponse ∧
      handle_proto_id_dispatch 4 = .error .InvalidOpcode) ∧
    ∀ op : OpCode, op ≠ .InvokeRequest → op ≠ .ReadRequest → op ≠ .WriteRequest →
      ∀ n : Nat, OpCode.from_u8 n = some op →
        handle_proto_id_dispatch n = .error .InvalidOpcode := by
  refine ⟨⟨rfl, rfl⟩, ⟨rfl, rfl⟩, ?_⟩
  intro op h1 h2 h3 n hn
  unfold handle_proto_id_dispatch
  rw [hn]
  cases op <;> simp_all

/-- Witness for the amended C5: the TimedRequest opcode (10) also decodes
but errors out. -/
theorem subscribe_opcodes_error_without_response_witness :
    handle_proto_id_dispatch 10 = .error .InvalidOpcode :=
  subscribe_opcodes_error_without_response.2.2 OpCode.TimedRequest
    (by decide) (by decide) (by decide) 10 (by decide)

/-- Claim C8: the outgoing message counter starts at 1 for a fresh or
cloned session, `get_msg_ctr` returns the current counter (which `pre_send`
stamps into the plain header) and post-increments it, so consecutive calls
on the same session return strictly increasing values (within the u32
range of the counter). -/
theorem session_msg_ctr_strictly_increasing :
    (∀ peer_addr : Nat, (Session.new peer_addr).msg_ctr = 1) ∧
    (∀ (s : Session) (cd : CloneData), (s.clone cd).msg_ctr = 1) ∧
    (∀ s : Session, (s.get_msg_ctr).1 = s.msg_ctr) ∧
    (∀ (s : Session) (hdr : PlainHdr), (s.pre_send hdr).1.ctr = (s.get_msg_ctr).1) ∧
    (∀ s : Session, (s.get_msg_ctr).2.msg_ctr = (s.msg_ctr + 1) % U32_MOD) ∧
    (∀ s : Session, s.msg_ctr + 1 < U32_MOD →
      (s.get_msg_ctr).1 < ((s.get_msg_ctr).2.get_msg_ctr).1) := by
  refine ⟨fun _ => rfl, fun _ _ => rfl, fun _ => rfl, ?_, fun _ => rfl, ?_⟩
  · intro s hdr
    cases hs : s.is_encrypted <;> simp [Session.pre_send, hs]
  · intro s h
    simp only [Session.get_msg_ctr]
    rw [Nat.mod_eq_of_lt h]
    omega

/-- Witness for C8: on a fresh session the first two calls return 1 then 2. -/
theorem session_msg_ctr_strictly_increasing_witness :
    (Session.new 0).msg_ctr + 1 < U32_MOD ∧
    ((Session.new 0).get_msg_ctr).1 < (((Session.new 0).get_msg_ctr).2.get_msg_ctr).1 ∧
    ((Session.new 0).pre_send ⟨0, 0, .Unencrypted⟩).1.ctr = 1 :=
  ⟨by decide,
   session_msg_ctr_strictly_increasing.2.2.2.2.2 (Session.new 0) (by decide),
   by decide⟩

/-- Claim C9: `Node::get_endpoint` and `Node::add_cluster` index the fixed
endpoint array (of capacity `ENDPTS_PER_ACC`) with the caller-supplied id
without a bounds check: any id ≥ `ENDPTS_PER_ACC` panics instead of
returning an error, and only ids below the capacity are handled totally. -/
theorem node_endpoint_indexing_panics_oob :
    (∀ (n : Node) (endpoint_id : Nat), n.endpoints.length = ENDPTS_PER_ACC →
      ENDPTS_PER_ACC ≤ endpoint_id →
      n.get_endpoint endpoint_id = .panicked ∧
      ∀ c : Cluster, n.add_cluster endpoint_id c = .panicked) ∧
    (∀ (n : Node) (endpoint_id : Nat), n.endpoints.length = ENDPTS_PER_ACC →
      endpoint_id < ENDPTS_PER_ACC →
      n.get_endpoint endpoint_id ≠ .panicked ∧
      ∀ c : Cluster, n.add_cluster endpoint_id c ≠ .panicked) := by
  constructor
  · intro n endpoint_id hlen hge
    have hnone : n.endpoints.get? endpoint_id = none := by
      rw [List.get?_eq_none]
      omega
    constructor
    · unfold Node.get_endpoint
      rw [hnone]
    · intro c
      unfold Node.add_cluster
      rw [hnone]
  · intro n endpoint_id hlen hlt
    have hlt' : endpoint_id < n.endpoints.length := by omega
    have ho : n.endpoints.get? endpoint_id =
        some (n.endpoints.get ⟨endpoint_id, hlt'⟩) := List.get?_eq_get hlt'
    constructor
    · unfold Node.get_endpoint
      rw [ho]
      cases n.endpoints.get ⟨endpoint_id, hlt'⟩ with
      | none => simp
      | some ep => simp
    · intro c
      unfold Node.add_cluster
      rw [ho]
      cases n.endpoints.get ⟨endpoint_id, hlt'⟩ with
      | none => simp
      | some ep => cases hr : ep.add_cluster c <;> simp [hr]

/-- Witness for C9: on a fresh three-slot node, endpoint id 3 panics and
endpoint id 0 does not. -/
theorem node_endpoint_indexing_panics_oob_witness :
    Node.new.get_endpoint 3 = .panicked ∧
    Node.new.get_endpoint 0 ≠ .panicked :=
  ⟨(node_endpoint_indexing_panics_oob.1 Node.new 3 (by decide) (by decide)).1,
   (node_endpoint_indexing_panics_oob.2 Node.new 0 (by decide) (by decide)).1⟩

/-- Overwriting inside the buffer preserves its length. -/
theorem writeAt_length (buf src : List Nat) (i : Nat) (h : i + src.length ≤ buf.length) :
    (writeAt buf i src).length = buf.length := by
  simp [writeAt]
  omega

/-- Bytes before the written range are unchanged. -/
theorem writeAt_take (buf src : List Nat) (i : Nat) (h : i ≤ buf.length) :
    (writeAt buf i src).take i = buf.take i := by
  unfold writeAt
  rw [List.append_assoc, List.take_left' (by rw [List.length_take]; omega)]

/-- The written range holds exactly the source bytes. -/
theorem writeAt_middle (buf src : List Nat) (i : Nat) (h : i ≤ buf.length) :
    ((writeAt buf i src).drop i).take src.length = src := by
  unfold writeAt
  rw [List.append_assoc, List.drop_left' (by rw [List.length_take]; omega),
    List.take_left' rfl]

/-- Bytes after the written range are unchanged. -/
theorem writeAt_drop (buf src : List Nat) (i : Nat) (h : i ≤ buf.length) :
    (writeAt buf i src).drop (i + src.length) = buf.drop (i + src.length) := by
  unfold writeAt
  rw [List.drop_left' (by simp [List.length_take]; omega)]

/-- Claim C6: every mutating WriteBuf operation (append, prepend,
copy_from_slice and the typed le_* puts, all of which funnel through
`append_with` / `prepend_with`) bounds-checks against the available room
and returns NoSpace on overflow, leaving buffer and cursors unchanged; on
success exactly the requested bytes are written and the corresponding
cursor moves by that size. -/
theorem writebuf_mutations_bounds_checked :
    (∀ (wb : WriteBuf) (src : List Nat),
      (wb.buf.length < wb.end_ + src.length →
        wb.copy_from_slice src = (.error .NoSpace, wb)) ∧
      (wb.end_ + src.length ≤ wb.buf.length →
        wb.copy_from_slice src =
          (.ok (), { wb with buf := writeAt wb.buf wb.end_ src,
                             end_ := wb.end_ + src.length }) ∧
        ((writeAt wb.buf wb.end_ src).length = wb.buf.length ∧
         ((writeAt wb.buf wb.end_ src).drop wb.end_).take src.length = src ∧
         (writeAt wb.buf wb.end_ src).take wb.end_ = wb.buf.take wb.end_ ∧
         (writeAt wb.buf wb.end_ src).drop (wb.end_ + src.length) =
           wb.buf.drop (wb.end_ + src.length)))) ∧
    (∀ (wb : WriteBuf) (src : List Nat),
      wb.append src = wb.copy_from_slice src ∧
      wb.copy_from_slice src = wb.append_with src) ∧
    (∀ (wb : WriteBuf) (src : List Nat),
      (wb.start < src.length → wb.prepend src = (.error .NoSpace, wb)) ∧
      (src.length ≤ wb.start → wb.start ≤ wb.buf.length →
        wb.prepend src =
          (.ok (), { wb with buf := writeAt wb.buf (wb.start - src.length) src,
                             start := wb.start - src.length }) ∧
        ((writeAt wb.buf (wb.start - src.length) src).length = wb.buf.length ∧
         ((writeAt wb.buf (wb.start - src.length) src).drop
             (wb.start - src.length)).take src.length = src ∧
         (writeAt wb.buf (wb.start - src.length) src).take (wb.start - src.length) =
           wb.buf.take (wb.start - src.length) ∧
         (writeAt wb.buf (wb.start - src.length) src).drop wb.start =
           wb.buf.drop wb.start))) ∧
    (∀ (wb : WriteBuf) (d : Nat),
      wb.le_u8 d = wb.append_with (leBytes 1 d) ∧
      wb.le_u16 d = wb.append_with (leBytes 2 d) ∧
      wb.le_u32 d = wb.append_with (leBytes 4 d) ∧
      wb.le_u64 d = wb.append_with (leBytes 8 d) ∧
      ∀ n : Nat, wb.le_uint n d = wb.append_with (leBytes n d)) ∧
    (∀ n d : Nat, (leBytes n d).length = n) := by
  refine ⟨?_, ?_, ?_, ?_, ?_⟩
  · intro wb src
    constructor
    · intro hov
      unfold WriteBuf.copy_from_slice WriteBuf.append_with
      rw [if_neg (by omega)]
    · intro hfit
      refine ⟨?_, writeAt_length _ _ _ hfit, writeAt_middle _ _ _ (by omega),
              writeAt_take _ _ _ (by omega), writeAt_drop _ _ _ (by omega)⟩
      unfold WriteBuf.copy_from_slice WriteBuf.append_with
      rw [if_pos hfit]
  · exact fun wb src => ⟨rfl, rfl⟩
  · intro wb src
    constructor
    · intro hov
      unfold WriteBuf.prepend WriteBuf.prepend_with
      rw [if_neg (by omega)]
    · intro hfit hst
      have heq : wb.start - src.length + src.length = wb.start := by omega
      refine ⟨?_, writeAt_length wb.buf src (wb.start - src.length) (by omega),
              writeAt_middle wb.buf src (wb.start - src.length) (by omega),
              writeAt_take wb.buf src (wb.start - src.length) (by omega), ?_⟩
      · unfold WriteBuf.prepend WriteBuf.prepend_with
        rw [if_pos hfit]
      · have h4 := writeAt_drop wb.buf src (wb.start - src.length) (by omega)
        rw [heq] at h4
        exact h4
  · exact fun wb d => ⟨rfl, rfl, rfl, rfl, fun n => rfl⟩
  · intro n d
    simp [leBytes]

/-- Witness for C6: a 4-byte buffer with cursors at 2 rejects a 3-byte
append unchanged and accepts a 2-byte append and a 2-byte prepend. -/
theorem writebuf_mutations_bounds_checked_witness :
    WriteBuf.copy_from_slice ⟨[9, 9, 9, 9], 2, 2⟩ [1, 2, 3] =
      (.error .NoSpace, ⟨[9, 9, 9, 9], 2, 2⟩) ∧
    WriteBuf.copy_from_slice ⟨[9, 9, 9, 9], 2, 2⟩ [7, 8] =
      (.ok (), ⟨[9, 9, 7, 8], 2, 4⟩) ∧
    WriteBuf.prepend ⟨[9, 9, 9, 9], 2, 2⟩ [5, 6] = (.ok (), ⟨[5, 6, 9, 9], 0, 2⟩) ∧
    WriteBuf.prepend ⟨[9, 9, 9, 9], 1, 2⟩ [5, 6] =
      (.error .NoSpace, ⟨[9, 9, 9, 9], 1, 2⟩) :=
  ⟨(writebuf_mutations_bounds_checked.1 ⟨[9, 9, 9, 9], 2, 2⟩ [1, 2, 3]).1 (by decide),
   by
    have h := ((writebuf_mutations_bounds_checked.1 ⟨[9, 9, 9, 9], 2, 2⟩ [7, 8]).2
      (by decide)).1
    exact h.trans (by decide),
   by
    have h := ((writebuf_mutations_bounds_checked.2.2.1 ⟨[9, 9, 9, 9], 2, 2⟩ [5, 6]).2
      (by decide) (by decide)).1
    exact h.trans (by decide),
   (writebuf_mutations_bounds_checked.2.2.1 ⟨[9, 9, 9, 9], 1, 2⟩ [5, 6]).1 (by decide)⟩

/-- If consuming the tag fails, `next` fails. -/
theorem tlv_next_none_of_tag_fail (t : TLVListIterator) (h1 : 1 ≤ t.left)
    (h2 : (t.advance 1).read_this_tag ((byteAt t.buf t.current &&& 0xe0) >>> 5) = none) :
    t.next = none := by
  unfold TLVListIterator.next
  rw [if_neg (by omega)]
  simp only [h2]

/-- If the tag is consumed but reading the value fails, `next` fails. -/
theorem tlv_next_none_of_value_fail (t t2 : TLVListIterator) (tag : TagType) (h1 : 1 ≤ t.left)
    (h2 : (t.advance 1).read_this_tag ((byteAt t.buf t.current &&& 0xe0) >>> 5) =
      some (tag, t2))
    (h3 : t2.read_this_value (byteAt t.buf t.current &&& 0x1f) = none) :
    t.next = none := by
  unfold TLVListIterator.next
  rw [if_neg (by omega)]
  simp only [h2, h3]

/-- An element-type code at or beyond the extractor table fails. -/
theorem read_this_value_none_ge (t2 : TLVListIterator) (ek : Nat)
    (h : ek ≥ MAX_VALUE_INDEX) : t2.read_this_value ek = none := by
  unfold TLVListIterator.read_this_value
  rw [if_pos h]

/-- The element-type codes whose extractor returns `Last` (floats, wide
strings) always fail, whatever the remaining bytes. -/
theorem read_this_value_none_unsupported (t2 : TLVListIterator) (ek : Nat)
    (h : ek ∈ unsupportedElemKinds) : t2.read_this_value ek = none := by
  simp only [unsupportedElemKinds, List.mem_cons, List.not_mem_nil, or_false] at h
  rcases h with rfl | rfl | rfl | rfl | rfl | rfl | rfl | rfl <;>
    simp [TLVListIterator.read_this_value, extractValue, MAX_VALUE_INDEX, VALUE_SIZE_MAP]

/-- Claim C1: whenever a TLV element's tag bytes are truncated, its type
code is unknown or unsupported, or its declared value length exceeds the
bytes remaining, `TLVListIterator::next` returns None (fail-closed, no
element yielded); in particular on the bytes 15 30 00 0b 73 6d 61 72 the
reader yields the opening struct and then nothing (the string length
claims 11, only 4 bytes are present). -/
theorem tlv_list_iterator_fail_closed :
    (∀ t : TLVListIterator,
      1 ≤ t.left →
      TAG_SIZE_MAP.getD ((byteAt t.buf t.current &&& 0xe0) >>> 5) 0 > t.left - 1 →
      t.next = none) ∧
    (∀ t : TLVListIterator,
      (byteAt t.buf t.current &&& 0x1f ≥ MAX_VALUE_INDEX ∨
        byteAt t.buf t.current &&& 0x1f ∈ unsupportedElemKinds) →
      t.next = none) ∧
    (∀ (t t2 : TLVListIterator) (tag : TagType),
      1 ≤ t.left →
      (t.advance 1).read_this_tag ((byteAt t.buf t.current &&& 0xe0) >>> 5) =
        some (tag, t2) →
      (VALUE_SIZE_MAP.getD (byteAt t.buf t.current &&& 0x1f) 0 > t2.left ∨
        ((byteAt t.buf t.current &&& 0x1f = 12 ∨ byteAt t.buf t.current &&& 0x1f = 16) ∧
          byteAt t2.buf t2.current + 1 > t2.left)) →
      t.next = none) ∧
    ((tlvListIterOf truncStrBytes).next =
      some (⟨.Anonymous, .Struct ⟨truncStrBytes, 1, 7⟩⟩, ⟨truncStrBytes, 1, 7⟩) ∧
     TLVListIterator.next ⟨truncStrBytes, 1, 7⟩ = none) := by
  refine ⟨?_, ?_, ?_, by decide, by decide⟩
  · intro t h1 h2
    apply tlv_next_none_of_tag_fail t h1
    unfold TLVListIterator.read_this_tag
    by_cases hk : (byteAt t.buf t.current &&& 0xe0) >>> 5 ≥ MAX_TAG_INDEX
    · rw [if_pos hk]
    · rw [if_neg hk]
      have hadv : (t.advance 1).left = t.left - 1 := rfl
      simp only [hadv]
      rw [if_pos h2]
  · intro t hk
    by_cases h1 : t.left < 1
    · unfold TLVListIterator.next
      rw [if_pos h1]
    · have h1' : 1 ≤ t.left := by omega
      cases hrt : (t.advance 1).read_this_tag ((byteAt t.buf t.current &&& 0xe0) >>> 5) with
      | none => exact tlv_next_none_of_tag_fail t h1' hrt
      | some p =>
        refine tlv_next_none_of_value_fail t p.2 p.1 h1' (by rw [hrt]) ?_
        cases hk with
        | inl h => exact read_this_value_none_ge p.2 _ h
        | inr h => exact read_this_value_none_unsupported p.2 _ h
  · intro t t2 tag h1 h2 h3
    apply tlv_next_none_of_value_fail t t2 tag h1 h2
    unfold TLVListIterator.read_this_value
    by_cases h25 : byteAt t.buf t.current &&& 0x1f ≥ MAX_VALUE_INDEX
    · rw [if_pos h25]
    · rw [if_neg h25]
      rcases h3 with hsz | ⟨hek, hb⟩
      · simp only [if_pos hsz]
      · by_cases hsz : VALUE_SIZE_MAP.getD (byteAt t.buf t.current &&& 0x1f) 0 > t2.left
        · simp only [if_pos hsz]
        · rw [if_neg hsz]
          rcases hek with h | h <;>
            simp [h, extractValue, if_pos hb]

/-- Witness for C1: a context-tagged element whose tag byte is missing, an
element with type code 0x1f, and a tagged u8 whose value byte is missing
all make `next` return None. -/
theorem tlv_list_iterator_fail_closed_witness :
    TLVListIterator.next ⟨[0x36], 0, 1⟩ = none ∧
    TLVListIterator.next ⟨[0x1f, 0x00], 0, 2⟩ = none ∧
    TLVListIterator.next ⟨[0x24, 0x00], 0, 2⟩ = none :=
  ⟨tlv_list_iterator_fail_closed.1 ⟨[0x36], 0, 1⟩ (by decide) (by decide),
   tlv_list_iterator_fail_closed.2.1 ⟨[0x1f, 0x00], 0, 2⟩ (Or.inl (by decide)),
   tlv_list_iterator_fail_closed.2.2.1 ⟨[0x24, 0x00], 0, 2⟩ ⟨[0x24, 0x00], 2, 0⟩
     (.Context 0) (by decide) (by decide) (Or.inl (by decide))⟩

/-- A list iterator with nothing left yields nothing. -/
theorem tlv_next_none_left_zero (t : TLVListIterator) (h : t.left = 0) :
    t.next = none := by
  unfold TLVListIterator.next
  rw [if_pos (by omega)]

/-- One step of the container iterator from a consumed-or-exhausted state:
it yields nothing and stays consumed-or-exhausted. -/
theorem container_next_stuck (it : TLVContainerIterator)
    (h : it.iterator_consumed = true ∨ it.list_iter.left = 0) :
    (it.next).1 = none ∧
    ((it.next).2.iterator_consumed = true ∨ (it.next).2.list_iter.left = 0) := by
  by_cases hc : it.iterator_consumed = true
  · constructor <;> simp [TLVContainerIterator.next, hc]
  · have h0 : it.list_iter.left = 0 := by
      rcases h with h | h
      · exact absurd h hc
      · exact h
    have hn : it.list_iter.next = none := tlv_next_none_left_zero _ h0
    by_cases hp : it.prev_container = true
    · have hskip : it.skip_to_end_of_container = (none, it.list_iter, false) := by
        unfold TLVContainerIterator.skip_to_end_of_container
        rw [h0]
        simp [skipLoop, hn]
      constructor <;> simp [TLVContainerIterator.next, hc, hp, hskip, h0]
    · constructor <;> simp [TLVContainerIterator.next, hc, hp, hn, h0]

/-- From a consumed-or-exhausted container-iterator state, every later call
yields nothing. -/
theorem container_stuck_forever (it1 : TLVContainerIterator)
    (h : it1.iterator_consumed = true ∨ it1.list_iter.left = 0) :
    ∀ n : Nat, ((nextIter^[n]) it1).next.1 = none := by
  intro n
  induction n generalizing it1 with
  | zero => exact (container_next_stuck it1 h).1
  | succ n ih =>
    rw [Function.iterate_succ_apply]
    exact ih (nextIter it1) (container_next_stuck it1 h).2

/-- Claim C7: once a container iterator's `next` has returned None because
the matching end-of-container was reached (`iterator_consumed` set) or the
underlying list was exhausted, every subsequent call returns None as well,
even though the underlying list iterator need not be exhausted; and a
nested container is skipped as a single opaque element (on the input of the
source's `test_read_past_end_of_container`, the element after the nested
struct is yielded directly, then the end of the outer container sticks). -/
theorem container_iterator_none_sticky :
    (∀ it it1 : TLVContainerIterator,
      it.next = (none, it1) →
      it1.iterator_consumed = true ∨ it1.list_iter.left = 0 →
      ∀ n : Nat, ((nextIter^[n]) it1).next.1 = none) ∧
    (TLVContainerIterator.next ⟨⟨nestedBytes, 1, 10⟩, false, false⟩ =
      (some ⟨.Context 0, .Struct ⟨nestedBytes, 3, 8⟩⟩,
       ⟨⟨nestedBytes, 3, 8⟩, true, false⟩) ∧
     TLVContainerIterator.next ⟨⟨nestedBytes, 3, 8⟩, true, false⟩ =
      (some ⟨.Context 0, .U8 2⟩, ⟨⟨nestedBytes, 10, 1⟩, false, false⟩) ∧
     TLVContainerIterator.next ⟨⟨nestedBytes, 10, 1⟩, false, false⟩ =
      (none, ⟨⟨nestedBytes, 11, 0⟩, false, true⟩) ∧
     TLVContainerIterator.next ⟨⟨nestedBytes, 11, 0⟩, false, true⟩ =
      (none, ⟨⟨nestedBytes, 11, 0⟩, false, true⟩)) := by
  refine ⟨?_, by decide, by decide, by decide, by decide⟩
  intro it it1 hnext h n
  exact container_stuck_forever it1 h n

/-- Witness for C7: after the end of the outer container of `nestedBytes`
has been reached, the second and third calls still return None. -/
theorem container_iterator_none_sticky_witness :
    ((nextIter^[2]) ⟨⟨nestedBytes, 11, 0⟩, false, true⟩).next.1 = none :=
  container_iterator_none_sticky.1 ⟨⟨nestedBytes, 10, 1⟩, false, false⟩
    ⟨⟨nestedBytes, 11, 0⟩, false, true⟩ (by decide) (Or.inl (by decide)) 2

/-- The generator increment always produces a positive id. -/
theorem succSessId_ge_one (x : Nat) : 1 ≤ succSessId x := by
  simp only [succSessId]
  split <;> omega

/-- The generator increment stays within the u16 range. -/
theorem succSessId_le (x : Nat) : succSessId x ≤ 65535 := by
  simp only [succSessId]
  have := Nat.mod_lt (x + 1) (show 0 < 65536 by norm_num)
  split <;> omega

/-- On 1..65535 the generator increment is the cyclic successor. -/
theorem succSessId_closed (x : Nat) (h1 : 1 ≤ x) (h2 : x ≤ 65535) :
    succSessId x = x % 65535 + 1 := by
  by_cases hx : x = 65535
  · subst hx; decide
  · have h3 : x + 1 < 65536 := by omega
    simp only [succSessId]
    rw [Nat.mod_eq_of_lt h3, if_neg (by omega), Nat.mod_eq_of_lt (by omega : x < 65535)]

/-- The 0-th candidate is the generator value itself. -/
theorem candAt_zero (c0 : Nat) (h1 : 1 ≤ c0) (h2 : c0 ≤ 65535) : candAt c0 0 = c0 := by
  unfold candAt
  rw [Nat.add_zero, Nat.mod_eq_of_lt (by omega)]
  omega

/-- Advancing the generator shifts the candidate sequence by one. -/
theorem candAt_succ (c0 : Nat) (h1 : 1 ≤ c0) (h2 : c0 ≤ 65535) (i : Nat) :
    candAt (succSessId c0) i = candAt c0 (i + 1) := by
  rw [succSessId_closed c0 h1 h2]
  unfold candAt
  have e1 : c0 % 65535 + 1 - 1 + i = c0 % 65535 + i := by omega
  have e2 : c0 - 1 + (i + 1) = c0 + i := by omega
  rw [e1, e2, Nat.mod_add_mod]

/-- Changing only the generator does not change session lookup. -/
theorem get_with_id_update (m : SessionMgr) (k id : Nat) :
    SessionMgr.get_with_id { m with next_sess_id := k } id = m.get_with_id id := rfl

/-- When a lookup succeeds, the id really is stored. -/
theorem mem_usedIds_of_found (m : SessionMgr) (id : Nat)
    (h : (m.get_with_id id).isNone = false) : id ∈ usedIds m := by
  have hsome : (m.get_with_id id).isSome = true := by
    cases hx : m.get_with_id id with
    | none => rw [hx] at h; simp at h
    | some v => simp
  rw [SessionMgr.get_with_id, List.findIdx?_isSome] at hsome
  obtain ⟨x, hx, hpx⟩ := List.any_eq_true.mp hsome
  cases x with
  | none => simp at hpx
  | some s =>
    simp only [Option.map_some', beq_iff_eq, Option.some.injEq] at hpx
    unfold usedIds
    rw [List.mem_filterMap]
    exact ⟨some s, hx, by simp [hpx]⟩

/-- There are no more stored ids than table slots. -/
theorem usedIds_length_le (m : SessionMgr) : (usedIds m).length ≤ m.sessions.length :=
  List.length_filterMap_le _ _

/-- Pigeonhole: with a 16-slot table, among the 17 candidates examined
first by the id-generator loop at least one is not in use. -/
theorem exists_free_candidate (m : SessionMgr) (hlen : m.sessions.length = 16)
    (h1 : 1 ≤ m.next_sess_id) (h2 : m.next_sess_id ≤ 65535) :
    ∃ i, i < 17 ∧ (m.get_with_id (candAt m.next_sess_id i)).isNone = true := by
  by_contra hall
  push_neg at hall
  have hmem : ∀ i, i < 17 → candAt m.next_sess_id i ∈ usedIds m := by
    intro i hi
    refine mem_usedIds_of_found m _ ?_
    have := hall i hi
    cases hx : (m.get_with_id (candAt m.next_sess_id i)).isNone with
    | true => exact absurd hx this
    | false => rfl
  have hnd : ((List.range 17).map (candAt m.next_sess_id)).Nodup := by
    refine List.Nodup.map_on ?_ (List.nodup_range 17)
    intro x hx y hy hxy
    simp only [List.mem_range] at hx hy
    unfold candAt at hxy
    have hxy' : (m.next_sess_id - 1 + x) % 65535 = (m.next_sess_id - 1 + y) % 65535 := by
      omega
    have hmx : Nat.ModEq 65535 x y :=
      Nat.ModEq.add_left_cancel' (m.next_sess_id - 1) hxy'
    have hmx' : x % 65535 = y % 65535 := hmx
    rw [Nat.mod_eq_of_lt (by omega), Nat.mod_eq_of_lt (by omega)] at hmx'
    exact hmx'
  have hsub : ((List.range 17).map (candAt m.next_sess_id)) ⊆ usedIds m := by
    intro a ha
    simp only [List.mem_map, List.mem_range] at ha
    obtain ⟨i, hi, rfl⟩ := ha
    exact hmem i hi
  have hlenL : ((List.range 17).map (candAt m.next_sess_id)).length = 17 := by simp
  have hle := (List.subperm_of_subset hnd hsub).length_le
  have h16 := usedIds_length_le m
  omega

/-- If some candidate among the first `fuel` is free, the loop succeeds
within `fuel` iterations. -/
theorem getNextSessIdLoop_isSome (fuel : Nat) :
    ∀ m : SessionMgr, 1 ≤ m.next_sess_id → m.next_sess_id ≤ 65535 →
    (∃ i, i < fuel ∧ (m.get_with_id (candAt m.next_sess_id i)).isNone = true) →
    (getNextSessIdLoop fuel m).isSome = true := by
  induction fuel with
  | zero =>
    intro m h1 h2 ⟨i, hi, _⟩
    omega
  | succ fuel ih =>
    intro m h1 h2 ⟨i, hi, hfree⟩
    unfold getNextSessIdLoop
    by_cases hc :
        (SessionMgr.get_with_id { m with next_sess_id := succSessId m.next_sess_id }
          m.next_sess_id).isNone = true
    · simp [hc]
    · rw [if_neg hc]
      have hc' : ¬ (m.get_with_id m.next_sess_id).isNone = true := by
        rw [← get_with_id_update m (succSessId m.next_sess_id)]
        exact hc
    
      have hi0 : i ≠ 0 := by
        intro h0
        subst h0
        rw [candAt_zero m.next_sess_id h1 h2] at hfree
        exact hc' hfree
      refine ih { m with next_sess_id := succSessId m.next_sess_id }
        (succSessId_ge_one _) (succSessId_le _) ⟨i - 1, by omega, ?_⟩
      show (SessionMgr.get_with_id { m with next_sess_id := succSessId m.next_sess_id }
        (candAt (succSessId m.next_sess_id) (i - 1))).isNone = true
      rw [get_with_id_update, candAt_succ m.next_sess_id h1 h2 (i - 1),
        (by omega : i - 1 + 1 = i)]
      exact hfree

/-- What the loop returns: the sessions are untouched, the returned id is
not stored, and it is positive when the generator was. -/
theorem getNextSessIdLoop_ret (fuel : Nat) :
    ∀ m id m1, getNextSessIdLoop fuel m = some (id, m1) →
    m1.sessions = m.sessions ∧ (m.get_with_id id).isNone = true ∧
      (1 ≤ m.next_sess_id → 1 ≤ id) := by
  induction fuel with
  | zero =>
    intro m id m1 h
    simp [getNextSessIdLoop] at h
  | succ fuel ih =>
    intro m id m1 h
    unfold getNextSessIdLoop at h
    by_cases hc :
        (SessionMgr.get_with_id { m with next_sess_id := succSessId m.next_sess_id }
          m.next_sess_id).isNone = true
    · rw [if_pos hc] at h
      obtain ⟨rfl, rfl⟩ : m.next_sess_id = id ∧
          ({ m with next_sess_id := succSessId m.next_sess_id } : SessionMgr) = m1 := by
        cases h
        exact ⟨rfl, rfl⟩
      exact ⟨rfl, by rw [← get_with_id_update m (succSessId m.next_sess_id)]; exact hc,
             fun h1 => h1⟩
    · rw [if_neg hc] at h
      obtain ⟨hsess, hfree, hpos⟩ :=
        ih { m with next_sess_id := succSessId m.next_sess_id } id m1 h
      exact ⟨hsess, hfree, fun _ => hpos (succSessId_ge_one _)⟩

/-- Claim C10: `SessionMgr::get_next_sess_id` terminates on every reachable
state: the table stores at most 16 sessions, so among the 17 candidate ids
the loop examines first at least one is free, and fuel 17 already makes
the loop return. -/
theorem get_next_sess_id_terminates :
    ∀ m : SessionMgr, m.Wf → (getNextSessIdLoop 17 m).isSome = true := by
  intro m hwf
  obtain ⟨h1, h2, hlen⟩ := hwf
  exact getNextSessIdLoop_isSome 17 m h1 h2 (exists_free_candidate m hlen h1 h2)

/-- Witness for C10: the loop returns within 17 iterations on the two-session
scenario state. -/
theorem get_next_sess_id_terminates_witness :
    (getNextSessIdLoop 17 mgrScenarioA).isSome = true :=
  get_next_sess_id_terminates mgrScenarioA (by decide)

/-- Claim C3: on every well-formed session-manager state,
`reserve_new_sess_id` returns an id that is neither 0 nor the local id of
any stored session and leaves the table unchanged; the generator wraps past
u16::MAX back to 1; concretely, with live ids {1, 4} and the generator at 2
three calls return 2, 3, 5, and with the generator forced to 65534 while
id 1 is live three calls return 65534, 65535, 2. -/
theorem reserve_new_sess_id_fresh_nonzero :
    (∀ m : SessionMgr, m.Wf →
      ∃ id m1, SessionHandle.reserve_new_sess_id m = some (id, m1) ∧
        id ≠ 0 ∧ (m.get_with_id id).isNone = true ∧ m1.sessions = m.sessions) ∧
    (SessionMgr.get_next_sess_id mgrAtMax).map (fun r => (r.1, r.2.next_sess_id)) =
      some (65535, 1) ∧
    reserveCalls3 mgrScenarioA = some (2, 3, 5) ∧
    reserveCalls3 mgrScenarioB = some (65534, 65535, 2) := by
  refine ⟨?_, by decide, by decide, by decide⟩
  intro m hwf
  obtain ⟨h1, h2, hlen⟩ := hwf
  obtain ⟨i, hi, hfree⟩ := exists_free_candidate m hlen h1 h2
  have hsome := getNextSessIdLoop_isSome 65536 m h1 h2 ⟨i, by omega, hfree⟩
  obtain ⟨⟨id, m1⟩, hr⟩ := Option.isSome_iff_exists.mp hsome
  obtain ⟨hsess, hnotin, hpos⟩ := getNextSessIdLoop_ret 65536 m id m1 hr
  exact ⟨id, m1, hr, by have := hpos h1; omega, hnotin, hsess⟩

/-- Witness for C3: the general statement, instantiated at the {1, 4}
scenario state. -/
theorem reserve_new_sess_id_fresh_nonzero_witness :
    ∃ id m1, SessionHandle.reserve_new_sess_id mgrScenarioA = some (id, m1) ∧
      id ≠ 0 ∧ (mgrScenarioA.get_with_id id).isNone = true ∧
      m1.sessions = mgrScenarioA.sessions :=
  reserve_new_sess_id_fresh_nonzero.1 mgrScenarioA (by decide)
